import Mathlib

/-!
Verification of the WebGL/WASM transcoder wrappers
(webgl/transcoder/basis_wrappers.cpp) against their specification.

The wrapper file is the only source under verification; it calls into the
basisu transcoder library (basisu_transcoder.cpp / .h), which is not part of
the sources here.  Every definition below is either

  * a direct shallow embedding of code in basis_wrappers.cpp (uint32
    arithmetic is modelled as Nat with explicit reduction modulo 2^32 =
    4294967296 wherever a C++ uint32 operation can wrap), or

  * a definition whose doc comment starts with "Modelled from the spec:",
    standing in for library code that is not in the sources (the
    transcoder_texture_format enumeration, the format metadata table, the
    container parsing and query functions, and the low level codec entry
    points).  Those are modelled from the specification text, which treats
    them as external collaborators.

Buffers that cross the JavaScript boundary are modelled as List Nat (their
byte contents); TypedArray.prototype.set is modelled by js_set below with its
ECMAScript all-or-nothing semantics.
-/

/-- Magic value marking a live basis_file instance (the MAGIC macro). -/
def MAGIC : Nat := 0xDEADBEE1

/-- Modelled from the spec: numeric value of
transcoder_texture_format::cTFETC1_RGB (the enumeration lives in
basisu_transcoder.h, which is not among the sources; the enumerants and
their order are those exposed by the EMSCRIPTEN_BINDINGS block). -/
def cTFETC1_RGB : Nat := 0

/-- Modelled from the spec: numeric value of
transcoder_texture_format::cTFPVRTC1_4_RGB. -/
def cTFPVRTC1_4_RGB : Nat := 8

/-- Modelled from the spec: numeric value of
transcoder_texture_format::cTFPVRTC1_4_RGBA. -/
def cTFPVRTC1_4_RGBA : Nat := 9

/-- Modelled from the spec: numeric value of
transcoder_texture_format::cTFRGBA32, the 32 bit per pixel uncompressed
destination format. -/
def cTFRGBA32 : Nat := 13

/-- Modelled from the spec: numeric value of
transcoder_texture_format::cTFTotalTextureFormats, the number of destination
format enumerants. -/
def cTFTotalTextureFormats : Nat := 22

/-- Modelled from the spec: the Format Metadata Table entry
basis_get_bytes_per_block_or_pixel (basisu_transcoder.cpp, not among the
sources): bytes per compressed block for block formats, bytes per pixel for
the uncompressed formats 13..16, and the sentinel 0 for out of range
enumerants. -/
def basis_get_bytes_per_block_or_pixel (fmt : Nat) : Nat :=
  match fmt with
  | 0 => 8 | 1 => 16 | 2 => 8 | 3 => 16 | 4 => 8 | 5 => 16 | 6 => 16 | 7 => 16
  | 8 => 8 | 9 => 8 | 10 => 16 | 11 => 8 | 12 => 16 | 13 => 4 | 14 => 2
  | 15 => 2 | 16 => 2 | 17 => 8 | 18 => 8 | 19 => 8 | 20 => 8 | 21 => 16
  | _ => 0

/-- Modelled from the spec: basis_get_uncompressed_bytes_per_pixel
(basisu_transcoder.cpp, not among the sources): bytes per pixel of the
uncompressed destination formats (RGBA32 is 4 bytes, the three 16 bit
formats are 2 bytes), sentinel 0 otherwise. -/
def basis_get_uncompressed_bytes_per_pixel (fmt : Nat) : Nat :=
  match fmt with
  | 13 => 4 | 14 => 2 | 15 => 2 | 16 => 2 | _ => 0

/-- Modelled from the spec: basis_transcoder_format_is_uncompressed
(basisu_transcoder.cpp, not among the sources).  Per the spec the
uncompressed destination formats are exactly RGBA32, RGB565, BGR565 and
RGBA4444 (enumerants 13..16); every other format is a block format. -/
def basis_transcoder_format_is_uncompressed (fmt : Nat) : Bool :=
  fmt == 13 || fmt == 14 || fmt == 15 || fmt == 16

/-- Modelled from the spec: the per mip level information the Container
Index exposes (LevelInfo plus the level geometry and per level alpha
presence).  All numeric fields are uint32 values in the library. -/
structure ImageLevelInfo where
  orig_width : Nat
  orig_height : Nat
  total_blocks : Nat
  alpha_flag : Bool
  rgb_file_ofs : Nat
  rgb_file_len : Nat
  alpha_file_ofs : Nat
  alpha_file_len : Nat
deriving DecidableEq, Repr

/-- Modelled from the spec: the per image information the Container Index
exposes (ImageInfo): geometry of the top mip level, its block grid, the mip
chain, and the alpha / keyframe flags. -/
structure BasisImage where
  orig_width : Nat
  orig_height : Nat
  num_blocks_x : Nat
  num_blocks_y : Nat
  alpha_flag : Bool
  iframe_flag : Bool
  levels : List ImageLevelInfo
deriving DecidableEq, Repr

/-- Modelled from the spec: the parse result of a structurally valid
container byte buffer (FileInfo of the spec plus the image list).  A basis
file buffer that fails header validation, and in particular an empty
buffer, has no FileContent. -/
structure FileContent where
  version : Nat
  us_per_frame : Nat
  userdata0 : Nat
  userdata1 : Nat
  tex_format : Nat
  y_flipped : Bool
  has_alpha_slices : Bool
  total_endpoints : Nat
  endpoint_codebook_ofs : Nat
  endpoint_codebook_size : Nat
  total_selectors : Nat
  selector_codebook_ofs : Nat
  selector_codebook_size : Nat
  tables_ofs : Nat
  tables_size : Nat
  images : List BasisImage
deriving DecidableEq, Repr

/-- Modelled from the spec: basisu_transcoder::get_image_level_desc (not
among the sources).  Queries on an invalid or empty buffer (file = none)
and out of range image or level indices fail, returning a neutral result;
otherwise the uint32 out parameters orig_width, orig_height and
total_blocks of the addressed level are produced. -/
def get_image_level_desc (file : Option FileContent) (ii li : Nat) :
    Option (Nat × Nat × Nat) :=
  match file with
  | none => none
  | some c =>
    match c.images.get? ii with
    | none => none
    | some img =>
      match img.levels.get? li with
      | none => none
      | some lv =>
        some (lv.orig_width % 4294967296, lv.orig_height % 4294967296,
          lv.total_blocks % 4294967296)

/-- Modelled from the spec: basisu_transcoder::get_image_level_info (not
among the sources): fails on an invalid buffer or out of range indices,
otherwise returns the per level record (we keep the fields used by the
wrapper: the alpha flag and the four slice offset/length fields). -/
def get_image_level_info (file : Option FileContent) (ii li : Nat) :
    Option ImageLevelInfo :=
  match file with
  | none => none
  | some c =>
    match c.images.get? ii with
    | none => none
    | some img => img.levels.get? li

/-- Modelled from the spec: basisu_transcoder::get_image_info (not among
the sources): fails on an invalid buffer or an out of range image index,
otherwise returns the image record. -/
def get_image_info (file : Option FileContent) (ii : Nat) :
    Option BasisImage :=
  match file with
  | none => none
  | some c => c.images.get? ii

/-- Modelled from the spec: basisu_transcoder::get_total_images (not among
the sources): a neutral 0 for an invalid or empty buffer, the image count
otherwise. -/
def get_total_images (file : Option FileContent) : Nat :=
  match file with
  | none => 0
  | some c => c.images.length

/-- Modelled from the spec: basisu_transcoder::get_file_info (not among the
sources): fails on an invalid or empty buffer, otherwise produces the
global file information. -/
def get_file_info (file : Option FileContent) : Option FileContent := file

/-- TypedArray.prototype.set as used by the wrappers to write bytes into a
caller supplied JavaScript buffer: per ECMAScript it throws a RangeError
(modelled as none, with the destination untouched) when the source does not
fit, and otherwise overwrites the leading bytes of the destination. -/
def js_set (dst src : List Nat) : Option (List Nat) :=
  if dst.length < src.length then none
  else some (src ++ dst.drop src.length)

/-- Shallow embedding of copy_to_jsbuffer: fails on an empty source vector,
fails when the declared destination capacity is too small, otherwise copies
the source bytes over the head of the destination buffer and succeeds.  The
returned list is the destination buffer after the call. -/
def copy_to_jsbuffer (dstBuffer srcVec : List Nat) : Bool × List Nat :=
  if srcVec.length = 0 then (false, dstBuffer)
  else if dstBuffer.length < srcVec.length then (false, dstBuffer)
  else (true, srcVec ++ dstBuffer.drop srcVec.length)

/-- The PVRTC1 4bpp padded size computation shared by
getImageTranscodedSizeInBytes and transcodeImage:
width and height are rounded up to multiples of 4 (the uint32 expression
(x + 3) & ~3), clamped below by 8, and the size is
(width * height * 4 + 7) / 8 with every operation performed in uint32
arithmetic (each step reduced modulo 2^32). -/
def pvrtc1_4_size (ow oh : Nat) : Nat :=
  ((max 8 ((ow + 3) % 4294967296 / 4 * 4) *
    max 8 ((oh + 3) % 4294967296 / 4 * 4)) % 4294967296
    * 4 % 4294967296 + 7) % 4294967296 / 8

/-- The destination size computation of
basis_file::getImageTranscodedSizeInBytes after the guards (and the
identical computation inside basis_file::transcodeImage): uncompressed
formats are width * bytesPerPixel * height, the PVRTC1 4x4 formats use the
padded pvrtc1_4_size, all other block formats are
total_blocks * bytesPerBlock.  All multiplications are uint32. -/
def image_level_size (fmt ow oh tb : Nat) : Nat :=
  if basis_transcoder_format_is_uncompressed fmt then
    ow * basis_get_uncompressed_bytes_per_pixel fmt % 4294967296 * oh % 4294967296
  else if fmt = cTFPVRTC1_4_RGB ∨ fmt = cTFPVRTC1_4_RGBA then
    pvrtc1_4_size ow oh
  else
    tb * basis_get_bytes_per_block_or_pixel fmt % 4294967296

/-- Shallow embedding of struct basis_file.  m_file models the owned byte
buffer through its parse result: none stands for an empty or cleared or
invalid buffer (the constructor clears the buffer when header validation
fails, so a live instance holds either nothing or a valid file), some c for
a buffer that validates and parses to c. -/
structure basis_file where
  m_magic : Nat
  m_file : Option FileContent
deriving DecidableEq, Repr

/-- The basis_file constructor: copies and validates the caller buffer and
then sets the magic; when basis_init has not run (no global codebook) it
returns before the copy and the validation, leaving m_magic at its 0
initializer. -/
def basis_file.construct (codebook_present : Bool)
    (input : Option FileContent) : basis_file :=
  if codebook_present then { m_magic := MAGIC, m_file := input }
  else { m_magic := 0, m_file := none }

/-- basis_file::close: clears the owned buffer.  Note the source leaves
m_magic at MAGIC, so later queries pass the magic guard and fall through to
the transcoder queries on the now empty buffer. -/
def basis_file.close (f : basis_file) : basis_file :=
  { f with m_file := none }

/-- basis_file::getHasAlpha: 0 when the magic guard fails or when image 0 /
mip level 0 cannot be queried, else the alpha flag of image 0 level 0. -/
def basis_file.getHasAlpha (f : basis_file) : Nat :=
  if f.m_magic ≠ MAGIC then 0
  else
    match get_image_level_info f.m_file 0 0 with
    | none => 0
    | some li => if li.alpha_flag then 1 else 0

/-- basis_file::getNumImages. -/
def basis_file.getNumImages (f : basis_file) : Nat :=
  if f.m_magic ≠ MAGIC then 0
  else get_total_images f.m_file

/-- basis_file::getNumLevels. -/
def basis_file.getNumLevels (f : basis_file) (image_index : Nat) : Nat :=
  if f.m_magic ≠ MAGIC then 0
  else
    match get_image_info f.m_file image_index with
    | none => 0
    | some img => img.levels.length

/-- basis_file::getImageWidth. -/
def basis_file.getImageWidth (f : basis_file) (image_index level_index : Nat) : Nat :=
  if f.m_magic ≠ MAGIC then 0
  else
    match get_image_level_desc f.m_file image_index level_index with
    | none => 0
    | some (ow, _, _) => ow

/-- basis_file::getImageHeight. -/
def basis_file.getImageHeight (f : basis_file) (image_index level_index : Nat) : Nat :=
  if f.m_magic ≠ MAGIC then 0
  else
    match get_image_level_desc f.m_file image_index level_index with
    | none => 0
    | some (_, oh, _) => oh

/-- struct basis_file_desc of the wrapper. -/
structure basis_file_desc where
  m_version : Nat
  m_us_per_frame : Nat
  m_total_images : Nat
  m_userdata0 : Nat
  m_userdata1 : Nat
  m_tex_format : Nat
  m_y_flipped : Bool
  m_has_alpha_slices : Bool
  m_num_endpoints : Nat
  m_endpoint_palette_ofs : Nat
  m_endpoint_palette_len : Nat
  m_num_selectors : Nat
  m_selector_palette_ofs : Nat
  m_selector_palette_len : Nat
  m_tables_ofs : Nat
  m_tables_len : Nat
deriving DecidableEq, Repr

/-- The memset zeroed basis_file_desc the queries fall back to. -/
def zero_basis_file_desc : basis_file_desc :=
  { m_version := 0, m_us_per_frame := 0, m_total_images := 0
    m_userdata0 := 0, m_userdata1 := 0, m_tex_format := 0
    m_y_flipped := false, m_has_alpha_slices := false
    m_num_endpoints := 0, m_endpoint_palette_ofs := 0, m_endpoint_palette_len := 0
    m_num_selectors := 0, m_selector_palette_ofs := 0, m_selector_palette_len := 0
    m_tables_ofs := 0, m_tables_len := 0 }

/-- struct basis_image_desc of the wrapper. -/
structure basis_image_desc where
  m_orig_width : Nat
  m_orig_height : Nat
  m_num_blocks_x : Nat
  m_num_blocks_y : Nat
  m_num_levels : Nat
  m_alpha_flag : Bool
  m_iframe_flag : Bool
deriving DecidableEq, Repr

/-- The memset zeroed basis_image_desc. -/
def zero_basis_image_desc : basis_image_desc :=
  { m_orig_width := 0, m_orig_height := 0, m_num_blocks_x := 0
    m_num_blocks_y := 0, m_num_levels := 0
    m_alpha_flag := false, m_iframe_flag := false }

/-- struct basis_image_level_desc of the wrapper. -/
structure basis_image_level_desc where
  m_rgb_file_ofs : Nat
  m_rgb_file_len : Nat
  m_alpha_file_ofs : Nat
  m_alpha_file_len : Nat
deriving DecidableEq, Repr

/-- The memset zeroed basis_image_level_desc. -/
def zero_basis_image_level_desc : basis_image_level_desc :=
  { m_rgb_file_ofs := 0, m_rgb_file_len := 0
    m_alpha_file_ofs := 0, m_alpha_file_len := 0 }

/-- basis_file::getFileDesc: the zeroed descriptor when the magic guard or
the file info query fails, otherwise the copied file information. -/
def basis_file.getFileDesc (f : basis_file) : basis_file_desc :=
  if f.m_magic ≠ MAGIC then zero_basis_file_desc
  else
    match get_file_info f.m_file with
    | none => zero_basis_file_desc
    | some c =>
      { m_version := c.version, m_us_per_frame := c.us_per_frame
        m_total_images := c.images.length
        m_userdata0 := c.userdata0, m_userdata1 := c.userdata1
        m_tex_format := c.tex_format
        m_y_flipped := c.y_flipped, m_has_alpha_slices := c.has_alpha_slices
        m_num_endpoints := c.total_endpoints
        m_endpoint_palette_ofs := c.endpoint_codebook_ofs
        m_endpoint_palette_len := c.endpoint_codebook_size
        m_num_selectors := c.total_selectors
        m_selector_palette_ofs := c.selector_codebook_ofs
        m_selector_palette_len := c.selector_codebook_size
        m_tables_ofs := c.tables_ofs, m_tables_len := c.tables_size }

/-- basis_file::getImageDesc. -/
def basis_file.getImageDesc (f : basis_file) (image_index : Nat) :
    basis_image_desc :=
  if f.m_magic ≠ MAGIC then zero_basis_image_desc
  else
    match get_image_info f.m_file image_index with
    | none => zero_basis_image_desc
    | some img =>
      { m_orig_width := img.orig_width, m_orig_height := img.orig_height
        m_num_blocks_x := img.num_blocks_x, m_num_blocks_y := img.num_blocks_y
        m_num_levels := img.levels.length
        m_alpha_flag := img.alpha_flag, m_iframe_flag := img.iframe_flag }

/-- basis_file::getImageLevelDesc. -/
def basis_file.getImageLevelDesc (f : basis_file)
    (image_index level_index : Nat) : basis_image_level_desc :=
  if f.m_magic ≠ MAGIC then zero_basis_image_level_desc
  else
    match get_image_level_info f.m_file image_index level_index with
    | none => zero_basis_image_level_desc
    | some lv =>
      { m_rgb_file_ofs := lv.rgb_file_ofs, m_rgb_file_len := lv.rgb_file_len
        m_alpha_file_ofs := lv.alpha_file_ofs
        m_alpha_file_len := lv.alpha_file_len }

/-- basis_file::getImageTranscodedSizeInBytes: 0 when the magic guard
fails, 0 for a format enumerant at or beyond cTFTotalTextureFormats, 0 when
the level geometry query fails, else the per format size computation. -/
def basis_file.getImageTranscodedSizeInBytes (f : basis_file)
    (image_index level_index format : Nat) : Nat :=
  if f.m_magic ≠ MAGIC then 0
  else if cTFTotalTextureFormats ≤ format then 0
  else
    match get_image_level_desc f.m_file image_index level_index with
    | none => 0
    | some (ow, oh, tb) => image_level_size format ow oh tb

/-- Modelled from the spec: basisu_transcoder::transcode_image_level (not
among the sources), reduced to its observable success/failure.  Per the
spec it validates the level lookup and that the declared destination
capacity (in blocks for block formats, in pixels for uncompressed formats)
covers the slice, and an empty slice or destination is an input contract
failure; on any failure no output is produced.  The actual decoded bytes
are opaque here (the wrapper models them as the zero filled buffer the C++
code allocates). -/
def transcode_image_level (file : Option FileContent)
    (ii li cap fmt : Nat) : Bool :=
  match get_image_level_desc file ii li with
  | none => false
  | some (ow, oh, tb) =>
    let needed :=
      if basis_transcoder_format_is_uncompressed fmt then
        ow * oh % 4294967296
      else tb
    decide (0 < needed) && decide (needed ≤ cap)

/-- basis_file::transcodeImage.  Returns none when the host side
TypedArray.set throws (destination buffer smaller than the transcoded
data), in which case the destination is untouched; otherwise some
(status, destination after the call).  Mirrors the source: the destination
vector dst_data of the computed required size is allocated zero filled, the
level is transcoded into it (capacity orig_width * orig_height pixels for
uncompressed formats, dst_data.size() / bytes_per_block blocks otherwise),
and dst_data is written to the caller buffer unconditionally, whatever the
transcode status was. -/
def basis_file.transcodeImage (f : basis_file) (dst : List Nat)
    (image_index level_index format unused get_alpha_for_opaque_formats : Nat) :
    Option (Nat × List Nat) :=
  if f.m_magic ≠ MAGIC then some (0, dst)
  else if cTFTotalTextureFormats ≤ format then some (0, dst)
  else
    match get_image_level_desc f.m_file image_index level_index with
    | none => some (0, dst)
    | some (ow, oh, tb) =>
      let required := image_level_size format ow oh tb
      let cap :=
        if basis_transcoder_format_is_uncompressed format then
          ow * oh % 4294967296
        else required / basis_get_bytes_per_block_or_pixel format
      let status :=
        if transcode_image_level f.m_file image_index level_index cap format
        then 1 else 0
      match js_set dst (List.replicate required 0) with
      | none => none
      | some dst2 => some (status, dst2)

/-- The process wide globals of the wrapper module: whether
basisu_transcoder_init has run and the g_pGlobal_codebook pointer (none =
null; the codebook contents are opaque, modelled as a unit payload). -/
structure GlobalState where
  transcoder_inited : Bool
  codebook : Option Unit
deriving DecidableEq, Repr

/-- basis_init: returns immediately when the global codebook pointer is
already set; otherwise runs the one time transcoder initialization and
allocates the global selector codebook. -/
def basis_init (g : GlobalState) : GlobalState :=
  match g.codebook with
  | some _ => g
  | none => { transcoder_inited := true, codebook := some () }

/-- Shallow embedding of class lowlevel_etc1s_image_transcoder: the state
inherited from basisu_lowlevel_etc1s_transcoder (decoded endpoint/selector
palettes and Huffman tables, modelled by what was loaded) plus the
per session video transcoder state (an opaque counter standing for the
previous frame slot). -/
structure lowlevel_etc1s_image_transcoder where
  palettes : Option (Nat × Nat)
  tables : Option Nat
  video_state : Nat
deriving DecidableEq, Repr

/-- Modelled from the spec: basisu_lowlevel_etc1s_transcoder::decode_palettes
(not among the sources) on non empty inputs: decodes and stores the shared
endpoint and selector palettes. -/
def etc1s_base_decode_palettes (s : lowlevel_etc1s_image_transcoder)
    (num_endpoints : Nat) (endpoint_data : List Nat)
    (num_selectors : Nat) (selector_data : List Nat) :
    Bool × lowlevel_etc1s_image_transcoder :=
  (true, { s with palettes := some (num_endpoints, num_selectors) })

/-- Modelled from the spec: basisu_lowlevel_etc1s_transcoder::decode_tables
(not among the sources) on a non empty input: decodes and stores the shared
Huffman code length tables. -/
def etc1s_base_decode_tables (s : lowlevel_etc1s_image_transcoder)
    (table_data : List Nat) : Bool × lowlevel_etc1s_image_transcoder :=
  (true, { s with tables := some table_data.length })

/-- lowlevel_etc1s_image_transcoder::decode_palettes: copies both caller
buffers, fails (leaving the session untouched) when either is empty, and
otherwise defers to the base class decoder. -/
def lowlevel_etc1s_image_transcoder.decode_palettes
    (s : lowlevel_etc1s_image_transcoder)
    (num_endpoints : Nat) (endpoint_data : List Nat)
    (num_selectors : Nat) (selector_data : List Nat) :
    Bool × lowlevel_etc1s_image_transcoder :=
  if endpoint_data.length = 0 ∨ selector_data.length = 0 then (false, s)
  else etc1s_base_decode_palettes s num_endpoints endpoint_data
    num_selectors selector_data

/-- lowlevel_etc1s_image_transcoder::decode_tables: copies the caller
buffer, fails (leaving the session untouched) when it is empty, and
otherwise defers to the base class decoder. -/
def lowlevel_etc1s_image_transcoder.decode_tables
    (s : lowlevel_etc1s_image_transcoder) (table_data : List Nat) :
    Bool × lowlevel_etc1s_image_transcoder :=
  if table_data.length = 0 then (false, s)
  else etc1s_base_decode_tables s table_data

/-- Modelled from the spec: the number of destination blocks (block
formats) or pixels (uncompressed formats) a low level transcode call must
produce, as the codec computes it from the slice geometry. -/
def blocks_or_pixels_needed (fmt nbx nby ow oh : Nat) : Nat :=
  if basis_transcoder_format_is_uncompressed fmt then
    ow * oh % 4294967296
  else nbx * nby % 4294967296

/-- Modelled from the spec:
basisu_lowlevel_etc1s_transcoder::transcode_image (not among the sources).
The session must be Ready (palettes and tables loaded), the format in
range, the slice non empty and the declared capacity sufficient, otherwise
the call fails producing nothing; on success the produced bytes fill the
destination vector (their values are opaque, modelled as zeros) and a video
frame advances the previous frame state slot. -/
def etc1s_base_transcode_image (s : lowlevel_etc1s_image_transcoder)
    (fmt buf_len cap nbx nby ow oh : Nat) (is_video : Bool) :
    Option (List Nat × lowlevel_etc1s_image_transcoder) :=
  if s.palettes.isNone || s.tables.isNone then none
  else if cTFTotalTextureFormats ≤ fmt then none
  else
    let needed := blocks_or_pixels_needed fmt nbx nby ow oh
    if needed = 0 || cap < needed then none
    else
      some (List.replicate buf_len 0,
        if is_video then { s with video_state := s.video_state + 1 } else s)

/-- lowlevel_etc1s_image_transcoder::transcode_image: after the global
codebook guard it copies the compressed slice and fails if it is empty,
fails if the caller output buffer has zero length, transcodes into a
temporary buffer of exactly the caller buffer length, fails (destination
untouched) when the base transcoder fails, and finally copies the temporary
buffer out through copy_to_jsbuffer.  Result: (status, caller buffer after
the call, session after the call). -/
def lowlevel_etc1s_image_transcoder.transcode_image
    (s : lowlevel_etc1s_image_transcoder) (g : GlobalState)
    (target_format : Nat) (output_blocks : List Nat)
    (output_blocks_buf_size_in_blocks_or_pixels : Nat)
    (compressed_data : List Nat)
    (num_blocks_x num_blocks_y orig_width orig_height level_index : Nat)
    (rgb_offset rgb_length alpha_offset alpha_length decode_flags : Nat)
    (basis_file_has_alpha_slices is_video : Bool)
    (output_row_pitch_in_blocks_or_pixels output_rows_in_pixels : Nat) :
    Bool × List Nat × lowlevel_etc1s_image_transcoder :=
  if g.codebook.isNone then (false, output_blocks, s)
  else if compressed_data.length = 0 then (false, output_blocks, s)
  else if output_blocks.length = 0 then (false, output_blocks, s)
  else
    match etc1s_base_transcode_image s target_format output_blocks.length
      output_blocks_buf_size_in_blocks_or_pixels num_blocks_x num_blocks_y
      orig_width orig_height is_video with
    | none => (false, output_blocks, s)
    | some (bytes, s2) =>
      let r := copy_to_jsbuffer output_blocks bytes
      (r.1, r.2, s2)

/-- Modelled from the spec:
basisu_lowlevel_uastc_transcoder::transcode_image (not among the sources):
stateless; fails for an out of range format, an empty slice or an
insufficient declared capacity, otherwise produces the destination bytes
(opaque, modelled as zeros). -/
def uastc_base_transcode_image (fmt buf_len cap nbx nby ow oh : Nat) :
    Option (List Nat) :=
  if cTFTotalTextureFormats ≤ fmt then none
  else
    let needed := blocks_or_pixels_needed fmt nbx nby ow oh
    if needed = 0 || cap < needed then none
    else some (List.replicate buf_len 0)

/-- transcode_uastc_image: mirrors the source control flow: global codebook
guard, empty compressed slice guard, empty output buffer guard, transcode
into a temporary buffer of the caller buffer length (fails with the
destination untouched when the stateless transcoder fails), then
copy_to_jsbuffer.  Result: (status, caller buffer after the call). -/
def transcode_uastc_image (g : GlobalState) (target_format_int : Nat)
    (output_blocks : List Nat)
    (output_blocks_buf_size_in_blocks_or_pixels : Nat)
    (compressed_data : List Nat)
    (num_blocks_x num_blocks_y orig_width orig_height level_index : Nat)
    (slice_offset slice_length decode_flags : Nat)
    (has_alpha is_video : Bool)
    (output_row_pitch_in_blocks_or_pixels output_rows_in_pixels : Nat)
    (channel0 channel1 : Int) : Bool × List Nat :=
  if g.codebook.isNone then (false, output_blocks)
  else if compressed_data.length = 0 then (false, output_blocks)
  else if output_blocks.length = 0 then (false, output_blocks)
  else
    match uastc_base_transcode_image target_format_int output_blocks.length
      output_blocks_buf_size_in_blocks_or_pixels num_blocks_x num_blocks_y
      orig_width orig_height with
    | none => (false, output_blocks)
    | some bytes => copy_to_jsbuffer output_blocks bytes

/-- Concrete mip level of 7 x 9 pixels (6 blocks of 4 x 4), no alpha. -/
def lvl79 : ImageLevelInfo :=
  { orig_width := 7, orig_height := 9, total_blocks := 6, alpha_flag := false
    rgb_file_ofs := 100, rgb_file_len := 40
    alpha_file_ofs := 0, alpha_file_len := 0 }

/-- Concrete single image holding lvl79. -/
def img79 : BasisImage :=
  { orig_width := 7, orig_height := 9, num_blocks_x := 2, num_blocks_y := 3
    alpha_flag := false, iframe_flag := true, levels := [lvl79] }

/-- Concrete valid container holding img79. -/
def file79 : FileContent :=
  { version := 13, us_per_frame := 0, userdata0 := 0, userdata1 := 0
    tex_format := 0, y_flipped := false, has_alpha_slices := false
    total_endpoints := 1, endpoint_codebook_ofs := 77, endpoint_codebook_size := 4
    total_selectors := 1, selector_codebook_ofs := 81, selector_codebook_size := 4
    tables_ofs := 85, tables_size := 10, images := [img79] }

/-- Live basis_file wrapping file79. -/
def bf79 : basis_file := { m_magic := MAGIC, m_file := some file79 }

/-- Concrete mip level of 1 x 1 pixels (1 block). -/
def lvl11 : ImageLevelInfo :=
  { orig_width := 1, orig_height := 1, total_blocks := 1, alpha_flag := false
    rgb_file_ofs := 100, rgb_file_len := 8
    alpha_file_ofs := 0, alpha_file_len := 0 }

/-- Live basis_file holding a single 1 x 1 level. -/
def bf11 : basis_file :=
  { m_magic := MAGIC
    m_file := some { file79 with images := [{ img79 with
      orig_width := 1, orig_height := 1, num_blocks_x := 1, num_blocks_y := 1
      levels := [lvl11] }] } }

/-- Concrete mip level of 32768 x 32768 pixels: 8192 x 8192 = 67108864
blocks.  The dimensions are representable in the 16 bit on disk fields yet
large enough that the uint32 size computations wrap. -/
def lvl32k : ImageLevelInfo :=
  { orig_width := 32768, orig_height := 32768, total_blocks := 67108864
    alpha_flag := false, rgb_file_ofs := 100, rgb_file_len := 1000
    alpha_file_ofs := 0, alpha_file_len := 0 }

/-- Live basis_file holding the 32768 x 32768 level. -/
def bf32k : basis_file :=
  { m_magic := MAGIC
    m_file := some { file79 with images := [{ img79 with
      orig_width := 32768, orig_height := 32768
      num_blocks_x := 8192, num_blocks_y := 8192, levels := [lvl32k] }] } }

/-- Degenerate mip level with zero geometry (0 blocks): its transcoded data
is empty for every block format. -/
def lvl00 : ImageLevelInfo :=
  { orig_width := 0, orig_height := 0, total_blocks := 0, alpha_flag := false
    rgb_file_ofs := 100, rgb_file_len := 0
    alpha_file_ofs := 0, alpha_file_len := 0 }

/-- Live basis_file holding the degenerate level. -/
def bf00 : basis_file :=
  { m_magic := MAGIC
    m_file := some { file79 with images := [{ img79 with
      orig_width := 0, orig_height := 0, num_blocks_x := 0, num_blocks_y := 0
      levels := [lvl00] }] } }

/-- Mip level with alpha present. -/
def lvlA : ImageLevelInfo :=
  { orig_width := 4, orig_height := 4, total_blocks := 1, alpha_flag := true
    rgb_file_ofs := 100, rgb_file_len := 8
    alpha_file_ofs := 108, alpha_file_len := 8 }

/-- Container whose image 0 level 0 has alpha while a second image does
not. -/
def fileAB : FileContent :=
  { file79 with images :=
    [ { img79 with
        orig_width := 4, orig_height := 4, num_blocks_x := 1
        num_blocks_y := 1, alpha_flag := true, levels := [lvlA] },
      img79 ] }

/-- Container that validates but contains no images at all. -/
def fileNoImages : FileContent := { file79 with images := [] }

/-- Live basis_file wrapping fileAB (image 0 level 0 is 4 x 4 and has
alpha). -/
def bfAB : basis_file := { m_magic := MAGIC, m_file := some fileAB }

/-- A fresh low level ETC1S session (nothing loaded yet). -/
def s0 : lowlevel_etc1s_image_transcoder :=
  { palettes := none, tables := none, video_state := 0 }

/-- Global state after basis_init has run. -/
def g_inited : GlobalState := { transcoder_inited := true, codebook := some () }

/-! ### Helper lemmas -/

theorem bpb_le_16 (fmt : Nat) : basis_get_bytes_per_block_or_pixel fmt ≤ 16 := by
  unfold basis_get_bytes_per_block_or_pixel
  split <;> omega

theorem bpb_pos (fmt : Nat) (h : fmt < 22) :
    0 < basis_get_bytes_per_block_or_pixel fmt := by
  interval_cases fmt <;> decide

theorem bpp_le_4 (fmt : Nat) : basis_get_uncompressed_bytes_per_pixel fmt ≤ 4 := by
  unfold basis_get_uncompressed_bytes_per_pixel
  split <;> omega

theorem uncompressed_cases (fmt : Nat)
    (h : basis_transcoder_format_is_uncompressed fmt = true) :
    fmt = 13 ∨ fmt = 14 ∨ fmt = 15 ∨ fmt = 16 := by
  unfold basis_transcoder_format_is_uncompressed at h
  simp at h
  tauto

theorem bpp_pos_of_uncompressed (fmt : Nat)
    (h : basis_transcoder_format_is_uncompressed fmt = true) :
    0 < basis_get_uncompressed_bytes_per_pixel fmt := by
  rcases uncompressed_cases fmt h with h | h | h | h <;> subst h <;> decide

theorem uncompressed_size_exact (fmt ow oh : Nat)
    (hw : ow ≤ 16384) (hh : oh ≤ 16384) :
    ow * basis_get_uncompressed_bytes_per_pixel fmt % 4294967296 * oh % 4294967296
      = ow * basis_get_uncompressed_bytes_per_pixel fmt * oh := by
  have h1 : ow * basis_get_uncompressed_bytes_per_pixel fmt ≤ 16384 * 4 :=
    Nat.mul_le_mul hw (bpp_le_4 fmt)
  have h2 : ow * basis_get_uncompressed_bytes_per_pixel fmt * oh ≤ 65536 * 16384 :=
    Nat.mul_le_mul (h1.trans (by norm_num)) hh
  rw [Nat.mod_eq_of_lt (lt_of_le_of_lt h1 (by norm_num)),
    Nat.mod_eq_of_lt (lt_of_le_of_lt h2 (by norm_num))]

theorem pvrtc1_4_size_exact (ow oh : Nat) (hw : ow ≤ 16384) (hh : oh ≤ 16384) :
    pvrtc1_4_size ow oh
      = (max 8 ((ow + 3) / 4 * 4) * max 8 ((oh + 3) / 4 * 4) * 4 + 7) / 8 := by
  have hw4 : (ow + 3) / 4 * 4 ≤ ow + 3 := Nat.div_mul_le_self _ _
  have hh4 : (oh + 3) / 4 * 4 ≤ oh + 3 := Nat.div_mul_le_self _ _
  have hmw : max 8 ((ow + 3) / 4 * 4) ≤ 16387 := max_le (by omega) (by omega)
  have hmh : max 8 ((oh + 3) / 4 * 4) ≤ 16387 := max_le (by omega) (by omega)
  have hp : max 8 ((ow + 3) / 4 * 4) * max 8 ((oh + 3) / 4 * 4) ≤ 16387 * 16387 :=
    Nat.mul_le_mul hmw hmh
  have hp4 : max 8 ((ow + 3) / 4 * 4) * max 8 ((oh + 3) / 4 * 4) * 4
      ≤ 16387 * 16387 * 4 := Nat.mul_le_mul hp (le_refl 4)
  unfold pvrtc1_4_size
  rw [Nat.mod_eq_of_lt (show ow + 3 < 4294967296 by omega),
    Nat.mod_eq_of_lt (show oh + 3 < 4294967296 by omega),
    Nat.mod_eq_of_lt (lt_of_le_of_lt hp (by norm_num)),
    Nat.mod_eq_of_lt (lt_of_le_of_lt hp4 (by norm_num)),
    Nat.mod_eq_of_lt (lt_of_le_of_lt (Nat.add_le_add_right hp4 7) (by norm_num))]

theorem pvrtc_formula_mono (ow1 oh1 ow2 oh2 : Nat)
    (hw : ow1 ≤ ow2) (hh : oh1 ≤ oh2) :
    (max 8 ((ow1 + 3) / 4 * 4) * max 8 ((oh1 + 3) / 4 * 4) * 4 + 7) / 8
      ≤ (max 8 ((ow2 + 3) / 4 * 4) * max 8 ((oh2 + 3) / 4 * 4) * 4 + 7) / 8 := by
  have h1 : (ow1 + 3) / 4 * 4 ≤ (ow2 + 3) / 4 * 4 :=
    Nat.mul_le_mul (Nat.div_le_div_right (by omega)) (le_refl 4)
  have h2 : (oh1 + 3) / 4 * 4 ≤ (oh2 + 3) / 4 * 4 :=
    Nat.mul_le_mul (Nat.div_le_div_right (by omega)) (le_refl 4)
  exact Nat.div_le_div_right (Nat.add_le_add_right
    (Nat.mul_le_mul (Nat.mul_le_mul (max_le_max (le_refl 8) h1)
      (max_le_max (le_refl 8) h2)) (le_refl 4)) 7)

/-! ### Claim theorems -/

/-- Claim C2 (confirmed): closing a container is terminal and re-entrant
(close after close equals close), and every query named by the claim
performed after close returns the neutral/zero result: the source leaves
the magic intact, so the queries fall through to the transcoder, which
rejects the now empty buffer. -/
theorem c2_close_terminal_and_neutral (f : basis_file) (i l fmt : Nat) :
    f.close.close = f.close ∧
    f.close.getNumImages = 0 ∧
    f.close.getNumLevels i = 0 ∧
    f.close.getImageWidth i l = 0 ∧
    f.close.getImageHeight i l = 0 ∧
    f.close.getHasAlpha = 0 ∧
    f.close.getImageTranscodedSizeInBytes i l fmt = 0 ∧
    f.close.getFileDesc = zero_basis_file_desc ∧
    f.close.getImageDesc i = zero_basis_image_desc ∧
    f.close.getImageLevelDesc i l = zero_basis_image_level_desc := by
  refine ⟨rfl, ?_, ?_, ?_, ?_, ?_, ?_, ?_, ?_, ?_⟩ <;>
    simp [basis_file.close, basis_file.getNumImages, basis_file.getNumLevels,
      basis_file.getImageWidth, basis_file.getImageHeight,
      basis_file.getHasAlpha, basis_file.getImageTranscodedSizeInBytes,
      basis_file.getFileDesc, basis_file.getImageDesc,
      basis_file.getImageLevelDesc, get_total_images, get_image_info,
      get_image_level_desc, get_image_level_info, get_file_info]

/-- Claim C4 (confirmed): a format enumerant at or beyond
cTFTotalTextureFormats makes getImageTranscodedSizeInBytes return the
failure sentinel 0 and makes transcodeImage return status 0 with the
caller buffer untouched, both before any destination data is produced. -/
theorem c4_format_out_of_range (f : basis_file) (dst : List Nat)
    (i l fmt u ga : Nat) (h : cTFTotalTextureFormats ≤ fmt) :
    f.getImageTranscodedSizeInBytes i l fmt = 0 ∧
    f.transcodeImage dst i l fmt u ga = some (0, dst) := by
  refine ⟨?_, ?_⟩ <;>
    simp [basis_file.getImageTranscodedSizeInBytes, basis_file.transcodeImage, h]

/-- Witness for c4_format_out_of_range at the concrete out of range
enumerant 22 on a live file. -/
theorem c4_format_out_of_range_witness :
    bf79.getImageTranscodedSizeInBytes 0 0 22 = 0 ∧
    bf79.transcodeImage [] 0 0 22 0 0 = some (0, []) :=
  c4_format_out_of_range bf79 [] 0 0 22 0 0 (by decide)

/-- Claim C6 (confirmed): decode_palettes with an empty endpoint or
selector buffer and decode_tables with an empty table buffer return false
and leave the session state (palettes, tables, video state) exactly as it
was. -/
theorem c6_decode_empty_fails :
    (∀ (s : lowlevel_etc1s_image_transcoder) (ne ns : Nat) (ed sd : List Nat),
      ed.length = 0 ∨ sd.length = 0 →
      s.decode_palettes ne ed ns sd = (false, s)) ∧
    (∀ (s : lowlevel_etc1s_image_transcoder) (td : List Nat),
      td.length = 0 → s.decode_tables td = (false, s)) := by
  constructor
  · intro s ne ns ed sd h
    unfold lowlevel_etc1s_image_transcoder.decode_palettes
    rw [if_pos h]
  · intro s td h
    unfold lowlevel_etc1s_image_transcoder.decode_tables
    rw [if_pos h]

/-- Witness for c6_decode_empty_fails: an empty endpoint buffer and an
empty table buffer on a fresh session. -/
theorem c6_decode_empty_fails_witness :
    lowlevel_etc1s_image_transcoder.decode_palettes s0 2 [] 2 [1] = (false, s0) ∧
    lowlevel_etc1s_image_transcoder.decode_tables s0 [] = (false, s0) :=
  ⟨c6_decode_empty_fails.1 s0 2 2 [] [1] (Or.inl rfl),
   c6_decode_empty_fails.2 s0 [] rfl⟩

/-- Claim C8 (confirmed): basis_init is idempotent; a second call returns
through the early exit on the already allocated global codebook and leaves
the global state exactly as after the first call. -/
theorem c8_basis_init_idempotent (g : GlobalState) :
    basis_init (basis_init g) = basis_init g := by
  unfold basis_init
  cases h : g.codebook <;> simp [h]

/-- Claim C10 (confirmed): getHasAlpha reports exactly the alpha flag of
image 0 mip level 0 of the container, whatever the rest of the container
holds (the container c is arbitrary), and returns 0 when image 0 or its
level 0 does not exist. -/
theorem c10_hasalpha_only_level00 :
    (∀ (c : FileContent) (lv : ImageLevelInfo),
      get_image_level_info (some c) 0 0 = some lv →
      basis_file.getHasAlpha { m_magic := MAGIC, m_file := some c }
        = (if lv.alpha_flag then 1 else 0)) ∧
    (∀ c : FileContent,
      get_image_level_info (some c) 0 0 = none →
      basis_file.getHasAlpha { m_magic := MAGIC, m_file := some c } = 0) := by
  constructor
  · intro c lv h
    unfold basis_file.getHasAlpha
    simp [h]
  · intro c h
    unfold basis_file.getHasAlpha
    simp [h]

/-- Witness for c10_hasalpha_only_level00: a container whose image 0 level
0 has alpha while its second image does not reports 1, and a container
without any image reports 0. -/
theorem c10_hasalpha_only_level00_witness :
    basis_file.getHasAlpha { m_magic := MAGIC, m_file := some fileAB } = 1 ∧
    basis_file.getHasAlpha { m_magic := MAGIC, m_file := some fileNoImages } = 0 := by
  constructor
  · exact (c10_hasalpha_only_level00.1 fileAB lvlA (by decide)).trans (by decide)
  · exact c10_hasalpha_only_level00.2 fileNoImages (by decide)

/-- Claim C1 (amended): for both PVRTC1 4x4 destination formats,
getImageTranscodedSizeInBytes returns exactly
ceil(max(8,w6) * max(8,h6) * 4 / 8), where w6 and h6 are the width and
height rounded up to multiples of 4, for every level whose original width
and height are at most 16384 (the maximum supported texture dimension of
the library); for larger representable dimensions the uint32 computation
in the source wraps (see the counterexample), which is the only amendment
to the claim. -/
theorem c1_pvrtc1_padded_size (f : basis_file) (ii li fmt ow oh tb : Nat)
    (hfmt : fmt = cTFPVRTC1_4_RGB ∨ fmt = cTFPVRTC1_4_RGBA)
    (hm : f.m_magic = MAGIC)
    (hd : get_image_level_desc f.m_file ii li = some (ow, oh, tb))
    (hw : ow ≤ 16384) (hh : oh ≤ 16384) :
    f.getImageTranscodedSizeInBytes ii li fmt
      = (max 8 ((ow + 3) / 4 * 4) * max 8 ((oh + 3) / 4 * 4) * 4 + 7) / 8 := by
  have key := pvrtc1_4_size_exact ow oh hw hh
  rcases hfmt with h | h <;> subst h <;>
    simp [basis_file.getImageTranscodedSizeInBytes, hm, hd, image_level_size,
      basis_transcoder_format_is_uncompressed, cTFPVRTC1_4_RGB,
      cTFPVRTC1_4_RGBA, cTFTotalTextureFormats, key]

/-- Witness for c1_pvrtc1_padded_size at the three dimension pairs named
by the claim: 1 x 1 and 4 x 4 pad to the 8 x 8 minimum (32 bytes), 7 x 9
pads to 8 x 12 (48 bytes). -/
theorem c1_pvrtc1_padded_size_witness :
    bf11.getImageTranscodedSizeInBytes 0 0 cTFPVRTC1_4_RGB = 32 ∧
    bfAB.getImageTranscodedSizeInBytes 0 0 cTFPVRTC1_4_RGBA = 32 ∧
    bf79.getImageTranscodedSizeInBytes 0 0 cTFPVRTC1_4_RGB = 48 := by
  refine ⟨?_, ?_, ?_⟩
  · exact (c1_pvrtc1_padded_size bf11 0 0 cTFPVRTC1_4_RGB 1 1 1 (Or.inl rfl) rfl
      (by decide) (by decide) (by decide)).trans (by decide)
  · exact (c1_pvrtc1_padded_size bfAB 0 0 cTFPVRTC1_4_RGBA 4 4 1 (Or.inr rfl) rfl
      (by decide) (by decide) (by decide)).trans (by decide)
  · exact (c1_pvrtc1_padded_size bf79 0 0 cTFPVRTC1_4_RGB 7 9 6 (Or.inl rfl) rfl
      (by decide) (by decide) (by decide)).trans (by decide)

/-- Counterexample to claim C1 as stated (for every original width and
height): at 32768 x 32768 - dimensions that fit the 16 bit on disk fields -
the source computes max(8,32768) * max(8,32768) * 4 in uint32, which wraps
to 0, so getImageTranscodedSizeInBytes returns 0 while the claimed formula
gives 536870912. -/
theorem c1_pvrtc1_padded_size_counterexample :
    bf32k.getImageTranscodedSizeInBytes 0 0 cTFPVRTC1_4_RGB = 0 ∧
    (max 8 ((32768 + 3) / 4 * 4) * max 8 ((32768 + 3) / 4 * 4) * 4 + 7) / 8
      = 536870912 := by
  decide

/-- Claim C5 (amended): for every uncompressed destination format the
returned size is exactly origWidth * origHeight * bytesPerPixel(format)
(no padding), and for every non PVRTC1 block format it is exactly
totalBlocks * bytesPerBlock(format) - in both cases provided the exact
product fits in uint32 (dimensions at most 16384 for the uncompressed
case, totalBlocks * bytesPerBlock below 2^32 for the block case); beyond
that the uint32 multiplications in the source wrap (see the
counterexample), which is the only amendment to the claim. -/
theorem c5_uncompressed_and_block_size :
    (∀ (f : basis_file) (ii li fmt ow oh tb : Nat),
      f.m_magic = MAGIC →
      get_image_level_desc f.m_file ii li = some (ow, oh, tb) →
      basis_transcoder_format_is_uncompressed fmt = true →
      ow ≤ 16384 → oh ≤ 16384 →
      f.getImageTranscodedSizeInBytes ii li fmt
        = ow * oh * basis_get_uncompressed_bytes_per_pixel fmt) ∧
    (∀ (f : basis_file) (ii li fmt ow oh tb : Nat),
      f.m_magic = MAGIC →
      get_image_level_desc f.m_file ii li = some (ow, oh, tb) →
      fmt < cTFTotalTextureFormats →
      basis_transcoder_format_is_uncompressed fmt = false →
      ¬(fmt = cTFPVRTC1_4_RGB ∨ fmt = cTFPVRTC1_4_RGBA) →
      tb * basis_get_bytes_per_block_or_pixel fmt < 4294967296 →
      f.getImageTranscodedSizeInBytes ii li fmt
        = tb * basis_get_bytes_per_block_or_pixel fmt) := by
  constructor
  · intro f ii li fmt ow oh tb hm hd hu hw hh
    have hlt : fmt < cTFTotalTextureFormats := by
      rcases uncompressed_cases fmt hu with h | h | h | h <;> subst h <;> decide
    have key := uncompressed_size_exact fmt ow oh hw hh
    simp [basis_file.getImageTranscodedSizeInBytes, hm, hd,
      Nat.not_le.mpr hlt, image_level_size, hu, key]
    ring
  · intro f ii li fmt ow oh tb hm hd hlt hu hnp hb
    simp [basis_file.getImageTranscodedSizeInBytes, hm, hd,
      Nat.not_le.mpr hlt, image_level_size, hu, hnp, Nat.mod_eq_of_lt hb]

/-- Witness for c5_uncompressed_and_block_size on a 7 x 9 level: RGBA32
gives 7 * 9 * 4 = 252 bytes, ETC1 (8 bytes per block, 6 blocks) gives 48
bytes. -/
theorem c5_uncompressed_and_block_size_witness :
    bf79.getImageTranscodedSizeInBytes 0 0 cTFRGBA32 = 252 ∧
    bf79.getImageTranscodedSizeInBytes 0 0 cTFETC1_RGB = 48 := by
  constructor
  · exact (c5_uncompressed_and_block_size.1 bf79 0 0 cTFRGBA32 7 9 6 rfl
      (by decide) (by decide) (by decide) (by decide)).trans (by decide)
  · exact (c5_uncompressed_and_block_size.2 bf79 0 0 cTFETC1_RGB 7 9 6 rfl
      (by decide) (by decide) (by decide) (by decide) (by decide)).trans (by decide)

/-- Counterexample to claim C5 as stated (for every image level): for
RGBA32 at 32768 x 32768 the uint32 product wraps to 0, yet
w * h * bytesPerPixel is 2^32. -/
theorem c5_uncompressed_and_block_size_counterexample :
    bf32k.getImageTranscodedSizeInBytes 0 0 cTFRGBA32 = 0 ∧
    32768 * 32768 * basis_get_uncompressed_bytes_per_pixel cTFRGBA32
      = 4294967296 := by
  decide

/-- Monotonicity of the size computation in width, height and block count
under no overflow bounds. -/
theorem image_level_size_mono (fmt ow1 oh1 tb1 ow2 oh2 tb2 : Nat)
    (hw : ow1 ≤ ow2) (hh : oh1 ≤ oh2) (htb : tb1 ≤ tb2)
    (hw2 : ow2 ≤ 16384) (hh2 : oh2 ≤ 16384)
    (hb : tb2 * basis_get_bytes_per_block_or_pixel fmt < 4294967296) :
    image_level_size fmt ow1 oh1 tb1 ≤ image_level_size fmt ow2 oh2 tb2 := by
  unfold image_level_size
  by_cases hu : basis_transcoder_format_is_uncompressed fmt = true
  · simp [hu, uncompressed_size_exact fmt ow1 oh1 (hw.trans hw2) (hh.trans hh2),
      uncompressed_size_exact fmt ow2 oh2 hw2 hh2]
    exact Nat.mul_le_mul (Nat.mul_le_mul hw (le_refl _)) hh
  · have hu' : basis_transcoder_format_is_uncompressed fmt = false := by
      simpa using hu
    by_cases hpv : fmt = cTFPVRTC1_4_RGB ∨ fmt = cTFPVRTC1_4_RGBA
    · simp [hu', hpv, pvrtc1_4_size_exact ow1 oh1 (hw.trans hw2) (hh.trans hh2),
        pvrtc1_4_size_exact ow2 oh2 hw2 hh2]
      exact pvrtc_formula_mono ow1 oh1 ow2 oh2 hw hh
    · have h1 : tb1 * basis_get_bytes_per_block_or_pixel fmt
          ≤ tb2 * basis_get_bytes_per_block_or_pixel fmt :=
        Nat.mul_le_mul htb (le_refl _)
      simp [hu', hpv, Nat.mod_eq_of_lt (lt_of_le_of_lt h1 hb),
        Nat.mod_eq_of_lt hb]
      exact h1

/-- Claim C7 (amended): getImageTranscodedSizeInBytes is deterministic (it
is a pure function of its inputs), and for a fixed format the returned
size is monotonically non decreasing in the original width, height (and
block count) of the addressed level, provided the larger level stays
within the no overflow bounds (dimensions at most 16384 and
totalBlocks * bytesPerBlock below 2^32); without that bound the uint32
wraparound breaks monotonicity (see the counterexample), which is the only
amendment to the claim. -/
theorem c7_deterministic_and_monotone :
    (∀ (f : basis_file) (ii li fmt : Nat),
      f.getImageTranscodedSizeInBytes ii li fmt
        = f.getImageTranscodedSizeInBytes ii li fmt) ∧
    (∀ (f1 f2 : basis_file) (i1 l1 i2 l2 fmt ow1 oh1 tb1 ow2 oh2 tb2 : Nat),
      f2.m_magic = MAGIC →
      get_image_level_desc f1.m_file i1 l1 = some (ow1, oh1, tb1) →
      get_image_level_desc f2.m_file i2 l2 = some (ow2, oh2, tb2) →
      ow1 ≤ ow2 → oh1 ≤ oh2 → tb1 ≤ tb2 → ow2 ≤ 16384 → oh2 ≤ 16384 →
      tb2 * basis_get_bytes_per_block_or_pixel fmt < 4294967296 →
      f1.getImageTranscodedSizeInBytes i1 l1 fmt
        ≤ f2.getImageTranscodedSizeInBytes i2 l2 fmt) := by
  constructor
  · intro f ii li fmt
    rfl
  · intro f1 f2 i1 l1 i2 l2 fmt ow1 oh1 tb1 ow2 oh2 tb2 hm2 hd1 hd2 hw hh htb
      hw2 hh2 hb
    by_cases hm1 : f1.m_magic = MAGIC
    · by_cases hfm : cTFTotalTextureFormats ≤ fmt
      · simp [basis_file.getImageTranscodedSizeInBytes, hfm]
      · have hlt : fmt < cTFTotalTextureFormats := Nat.not_le.mp hfm
        simp [basis_file.getImageTranscodedSizeInBytes, hm1, hm2, hd1, hd2, hfm]
        exact image_level_size_mono fmt ow1 oh1 tb1 ow2 oh2 tb2 hw hh htb hw2
          hh2 hb
    · simp [basis_file.getImageTranscodedSizeInBytes, hm1]

/-- Witness for the monotone part of c7_deterministic_and_monotone: the
1 x 1 level (8 bytes in ETC1) is no larger than the 7 x 9 level (48
bytes). -/
theorem c7_deterministic_and_monotone_witness :
    bf11.getImageTranscodedSizeInBytes 0 0 cTFETC1_RGB
      ≤ bf79.getImageTranscodedSizeInBytes 0 0 cTFETC1_RGB :=
  c7_deterministic_and_monotone.2 bf11 bf79 0 0 0 0 cTFETC1_RGB 1 1 1 7 9 6
    rfl (by decide) (by decide) (by decide) (by decide) (by decide)
    (by decide) (by decide) (by decide)

/-- Counterexample to claim C7 as stated: monotonicity fails without the
no overflow bound - the 1 x 1 RGBA32 level needs 4 bytes but the
32768 x 32768 level computes to 0 because 32768 * 4 * 32768 = 2^32 wraps
to 0 in uint32. -/
theorem c7_deterministic_and_monotone_counterexample :
    bf11.getImageTranscodedSizeInBytes 0 0 cTFRGBA32 = 4 ∧
    bf32k.getImageTranscodedSizeInBytes 0 0 cTFRGBA32 = 0 := by
  decide

/-- Claim C3 (amended): the destination buffer contract of the byte
returning entry points.  copy_to_jsbuffer fails without touching the
destination on an empty source and on insufficient capacity;
lowlevel_etc1s_image_transcoder::transcode_image and transcode_uastc_image
fail with the caller buffer and session untouched when the caller buffer
is empty or the declared capacity (in blocks or pixels) is below what the
slice needs; and basis_file::transcodeImage fails with the destination
untouched when the transcoded data is empty (status 0) or when the
destination is smaller than the required size (the host side
TypedArray.set throws, modelled as none, before writing anything).  For
basis_file::transcodeImage the empty-source part holds under the no
overflow bounds on the level geometry; without them the uint32 wraparound
can make the call succeed with an empty transcoded buffer (see the
counterexample), which is the only amendment to the claim. -/
theorem c3_dest_buffer_contract :
    (∀ dst src : List Nat, src.length = 0 →
      copy_to_jsbuffer dst src = (false, dst)) ∧
    (∀ dst src : List Nat, dst.length < src.length →
      copy_to_jsbuffer dst src = (false, dst)) ∧
    (∀ (s : lowlevel_etc1s_image_transcoder) (g : GlobalState)
      (fmt bufsz : Nat) (comp : List Nat)
      (nbx nby ow oh li ro rl ao al df : Nat) (hasl vid : Bool)
      (pitch rows : Nat),
      s.transcode_image g fmt [] bufsz comp nbx nby ow oh li ro rl ao al df
        hasl vid pitch rows = (false, [], s)) ∧
    (∀ (s : lowlevel_etc1s_image_transcoder) (g : GlobalState)
      (fmt : Nat) (blocks : List Nat) (bufsz : Nat) (comp : List Nat)
      (nbx nby ow oh li ro rl ao al df : Nat) (hasl vid : Bool)
      (pitch rows : Nat),
      bufsz < blocks_or_pixels_needed fmt nbx nby ow oh →
      s.transcode_image g fmt blocks bufsz comp nbx nby ow oh li ro rl ao al df
        hasl vid pitch rows = (false, blocks, s)) ∧
    (∀ (g : GlobalState) (fmt bufsz : Nat) (comp : List Nat)
      (nbx nby ow oh li so sl df : Nat) (ha vid : Bool)
      (pitch rows : Nat) (c0 c1 : Int),
      transcode_uastc_image g fmt [] bufsz comp nbx nby ow oh li so sl df
        ha vid pitch rows c0 c1 = (false, [])) ∧
    (∀ (g : GlobalState) (fmt : Nat) (blocks : List Nat) (bufsz : Nat)
      (comp : List Nat) (nbx nby ow oh li so sl df : Nat) (ha vid : Bool)
      (pitch rows : Nat) (c0 c1 : Int),
      bufsz < blocks_or_pixels_needed fmt nbx nby ow oh →
      transcode_uastc_image g fmt blocks bufsz comp nbx nby ow oh li so sl df
        ha vid pitch rows c0 c1 = (false, blocks)) ∧
    (∀ (f : basis_file) (dst : List Nat) (ii li fmt ow oh tb u ga : Nat),
      f.m_magic = MAGIC → fmt < cTFTotalTextureFormats →
      get_image_level_desc f.m_file ii li = some (ow, oh, tb) →
      ow ≤ 16384 → oh ≤ 16384 → tb ≤ 67108864 →
      image_level_size fmt ow oh tb = 0 →
      f.transcodeImage dst ii li fmt u ga = some (0, dst)) ∧
    (∀ (f : basis_file) (dst : List Nat) (ii li fmt ow oh tb u ga : Nat),
      f.m_magic = MAGIC → fmt < cTFTotalTextureFormats →
      get_image_level_desc f.m_file ii li = some (ow, oh, tb) →
      dst.length < image_level_size fmt ow oh tb →
      f.transcodeImage dst ii li fmt u ga = none) := by
  refine ⟨?_, ?_, ?_, ?_, ?_, ?_, ?_, ?_⟩
  · intro dst src h
    unfold copy_to_jsbuffer
    rw [if_pos h]
  · intro dst src h
    unfold copy_to_jsbuffer
    rcases Nat.eq_zero_or_pos src.length with hz | hp
    · rw [if_pos hz]
    · rw [if_neg (by omega), if_pos h]
  · intro s g fmt bufsz comp nbx nby ow oh li ro rl ao al df hasl vid pitch rows
    unfold lowlevel_etc1s_image_transcoder.transcode_image
    split_ifs <;> simp_all
  · intro s g fmt blocks bufsz comp nbx nby ow oh li ro rl ao al df hasl vid
      pitch rows hcap
    unfold lowlevel_etc1s_image_transcoder.transcode_image
    have hbase : etc1s_base_transcode_image s fmt blocks.length bufsz nbx nby
        ow oh vid = none := by
      unfold etc1s_base_transcode_image
      split_ifs <;> first
        | rfl
        | simp [hcap]
    split_ifs <;> simp [hbase]
  · intro g fmt bufsz comp nbx nby ow oh li so sl df ha vid pitch rows c0 c1
    unfold transcode_uastc_image
    split_ifs <;> simp_all
  · intro g fmt blocks bufsz comp nbx nby ow oh li so sl df ha vid pitch rows
      c0 c1 hcap
    unfold transcode_uastc_image
    have hbase : uastc_base_transcode_image fmt blocks.length bufsz nbx nby
        ow oh = none := by
      unfold uastc_base_transcode_image
      split_ifs <;> first
        | rfl
        | simp [hcap]
    split_ifs <;> simp [hbase]
  · intro f dst ii li fmt ow oh tb u ga hm hlt hd hw hh htb hreq
    have hstatus : ∀ cap, transcode_image_level f.m_file ii li cap fmt
        = false := by
      intro cap
      unfold transcode_image_level
      rw [hd]
      by_cases hu : basis_transcoder_format_is_uncompressed fmt = true
      · have hex := uncompressed_size_exact fmt ow oh hw hh
        have hz : ow * basis_get_uncompressed_bytes_per_pixel fmt * oh = 0 := by
          rw [← hex]
          simpa [image_level_size, hu] using hreq
        have hbpp := bpp_pos_of_uncompressed fmt hu
        have how : ow * oh = 0 := by
          rcases Nat.mul_eq_zero.mp hz with h | h
          · rcases Nat.mul_eq_zero.mp h with h' | h'
            · simp [h']
            · omega
          · simp [h]
        simp [hu, how]
      · have hu' : basis_transcoder_format_is_uncompressed fmt = false := by
          simpa using hu
        by_cases hpv : fmt = cTFPVRTC1_4_RGB ∨ fmt = cTFPVRTC1_4_RGBA
        · exfalso
          have hex := pvrtc1_4_size_exact ow oh hw hh
          have hz : pvrtc1_4_size ow oh = 0 := by
            simpa [image_level_size, hu', hpv] using hreq
          rw [hex] at hz
          have h64 : 64 ≤ max 8 ((ow + 3) / 4 * 4) * max 8 ((oh + 3) / 4 * 4) :=
            Nat.mul_le_mul (le_max_left 8 _) (le_max_left 8 _)
          omega
        · have h1 : tb * basis_get_bytes_per_block_or_pixel fmt
              ≤ 67108864 * 16 := Nat.mul_le_mul htb (bpb_le_16 fmt)
          have hlt2 : tb * basis_get_bytes_per_block_or_pixel fmt
              < 4294967296 := lt_of_le_of_lt h1 (by norm_num)
          have hz : tb * basis_get_bytes_per_block_or_pixel fmt = 0 := by
            have hq := hreq
            simp only [image_level_size, hu', hpv, if_false,
              Bool.false_eq_true, ite_false] at hq
            rwa [Nat.mod_eq_of_lt hlt2] at hq
          have hbpb := bpb_pos fmt hlt
          have htbz : tb = 0 := by
            rcases Nat.mul_eq_zero.mp hz with h | h
            · exact h
            · omega
          simp [hu', htbz]
    simp [basis_file.transcodeImage, hm, hd, Nat.not_le.mpr hlt, hstatus,
      hreq, js_set]
  · intro f dst ii li fmt ow oh tb u ga hm hlt hd hlen
    simp [basis_file.transcodeImage, hm, hd, Nat.not_le.mpr hlt, js_set, hlen]

/-- Witness for c3_dest_buffer_contract: each conjunct applied at concrete
inputs - empty and undersized copy_to_jsbuffer destinations, ETC1S and
UASTC low level calls with an empty output buffer and with a zero declared
capacity, a basis_file level with empty transcoded data (0 blocks), and a
destination smaller than the 48 bytes a 7 x 9 ETC1 level requires. -/
theorem c3_dest_buffer_contract_witness :
    copy_to_jsbuffer [1, 2] [] = (false, [1, 2]) ∧
    copy_to_jsbuffer [1] [5, 6] = (false, [1]) ∧
    lowlevel_etc1s_image_transcoder.transcode_image s0 g_inited 0 [] 4 [9]
      1 1 4 4 0 0 8 0 0 0 true false 0 0 = (false, [], s0) ∧
    lowlevel_etc1s_image_transcoder.transcode_image s0 g_inited 0 [7] 0 [9]
      1 1 4 4 0 0 8 0 0 0 true false 0 0 = (false, [7], s0) ∧
    transcode_uastc_image g_inited 0 [] 4 [9] 1 1 4 4 0 0 8 0 true false 0 0
      0 0 = (false, []) ∧
    transcode_uastc_image g_inited 0 [7] 0 [9] 1 1 4 4 0 0 8 0 true false 0 0
      0 0 = (false, [7]) ∧
    bf00.transcodeImage [] 0 0 cTFETC1_RGB 0 0 = some (0, []) ∧
    bf79.transcodeImage [] 0 0 cTFETC1_RGB 0 0 = none := by
  refine ⟨c3_dest_buffer_contract.1 [1, 2] [] rfl,
    c3_dest_buffer_contract.2.1 [1] [5, 6] (by decide),
    c3_dest_buffer_contract.2.2.1 s0 g_inited 0 4 [9] 1 1 4 4 0 0 8 0 0 0
      true false 0 0,
    c3_dest_buffer_contract.2.2.2.1 s0 g_inited 0 [7] 0 [9] 1 1 4 4 0 0 8 0
      0 0 true false 0 0 (by decide),
    c3_dest_buffer_contract.2.2.2.2.1 g_inited 0 4 [9] 1 1 4 4 0 0 8 0
      true false 0 0 0 0,
    c3_dest_buffer_contract.2.2.2.2.2.1 g_inited 0 [7] 0 [9] 1 1 4 4 0 0 8 0
      true false 0 0 0 0 (by decide),
    c3_dest_buffer_contract.2.2.2.2.2.2.1 bf00 [] 0 0 cTFETC1_RGB 0 0 0 0 0
      rfl (by decide) (by decide) (by decide) (by decide) (by decide)
      (by decide),
    c3_dest_buffer_contract.2.2.2.2.2.2.2 bf79 [] 0 0 cTFETC1_RGB 7 9 6 0 0
      rfl (by decide) (by decide) (by decide)⟩

/-- Counterexample to claim C3 as stated: for basis_file::transcodeImage on
an RGBA32 destination at 32768 x 32768 the uint32 size computation wraps
to 0, so the transcoded data to copy out is empty - yet the call returns
success (status 1) instead of failing: the source has no empty-source
check on this path and forwards the status of the underlying transcoder,
whose capacity validation passes. -/
theorem c3_dest_buffer_contract_counterexample :
    image_level_size cTFRGBA32 32768 32768 67108864 = 0 ∧
    bf32k.transcodeImage [] 0 0 cTFRGBA32 0 0 = some (1, []) := by
  decide

/-- Claim C9 (code_bug): the internal assertion
required_size >= total_blocks * bytes_per_block in
basis_file::transcodeImage for the PVRTC1 formats can fail: at
32768 x 32768 (total_blocks = 8192 * 8192 = 67108864, consistent with the
rounded dimensions, and 8 bytes per block) the uint32 padded size wraps to
0, which is strictly below total_blocks * bytes_per_block = 536870912, so
the assertion fires even though the claim (and the exact arithmetic)
say it cannot. -/
theorem c9_pvrtc1_assert_violated :
    (32768 + 3) / 4 * ((32768 + 3) / 4) = 67108864 ∧
    pvrtc1_4_size 32768 32768 = 0 ∧
    67108864 * basis_get_bytes_per_block_or_pixel cTFPVRTC1_4_RGB % 4294967296
      = 536870912 ∧
    pvrtc1_4_size 32768 32768
      < 67108864 * basis_get_bytes_per_block_or_pixel cTFPVRTC1_4_RGB
        % 4294967296 := by
  decide
